import Mathlib

/-!
Shallow embedding of the `todo-api` Flask application (`src/app.py`):
a single-resource CRUD API over a SQLite table of `Tarea` records.

Modelling conventions:
* The SQLite table is a `Store`: the list of rows (kept in rowid order)
  together with an abstract clock supplying `datetime.utcnow()` values.
* SQLite assigns the integer primary key of a fresh row as one more than
  the largest id currently in the table (`INTEGER PRIMARY KEY` is a rowid
  alias and the column declaration in `app.py` line 28 does not request
  `AUTOINCREMENT`); `maxId` below embeds that rule.
* A parsed JSON request body is `Option Datos`: `none` is the JSON value
  `null` (Python `None`), `some d` a JSON object.  The value bound to the
  key `"texto"` may be any JSON scalar (`JVal`), since `crear_tarea` and
  `actualizar_tarea` call `.strip()` on it and a non-string raises
  `AttributeError`, which the handlers turn into a 500 response.
* Python `str.strip()` is `pyStrip`: drop leading whitespace, then drop
  trailing whitespace (whitespace per `Char.isWhitespace`).
* Each handler returns `(status, body, newStore)`; an exception caught by
  the except block of a handler (after `db.session.rollback()`) is the 500
  branch with the store unchanged.
-/

namespace TodoApi

/-- JSON scalar values that can appear in a request body field. -/
inductive JVal where
  | str (s : String)
  | num (n : Int)
  | boolean (b : Bool)
  | null
deriving Repr, DecidableEq

/-- A row of the `tarea` table (`class Tarea`, app.py lines 24-31). -/
structure Tarea where
  id : Nat
  texto : String
  completada : Bool
  fecha_creacion : Nat
deriving Repr, DecidableEq

/-- A parsed JSON object request body, projected to the two keys the
handlers read (`texto`, `completada`).  Other keys never influence any
handler: the only whole-dict test in `app.py` is `not datos` (line 116),
and an empty dict in particular has no key `texto`, so that test is
subsumed by the `texto` lookup it guards. -/
structure Datos where
  texto : Option JVal := none
  completada : Option Bool := none
deriving Repr, DecidableEq

/-- The state of the SQLite database: rows in rowid order, plus the clock
that stands for `datetime.utcnow()`. -/
structure Store where
  tareas : List Tarea := []
  clock : Nat := 0
deriving Repr, DecidableEq

/-- The freshly created database. -/
def Store.init : Store := {}

/-- Python `str.strip()`: remove leading and trailing whitespace.
`trimRight` removes trailing whitespace characters. -/
def trimRight : List Char → List Char
  | [] => []
  | a :: l =>
    match trimRight l with
    | [] => if a.isWhitespace then [] else [a]
    | b :: m => a :: b :: m

/-- Python `str.strip()` on a Lean string. -/
def pyStrip (s : String) : String :=
  String.mk (trimRight (s.data.dropWhile Char.isWhitespace))

/-- The largest id present in the table (0 when empty); SQLite assigns
`maxId + 1` to the next inserted row. -/
def maxId (l : List Tarea) : Nat :=
  l.foldr (fun t m => max t.id m) 0

/-- A JSON response body, one constructor per shape the handlers emit. -/
inductive Resp where
  | tareaJson (t : Tarea)
  | listJson (ts : List Tarea)
  | errJson (msg : String)
  | msgJson (msg : String)
  | statsJson (total completadas pendientes : Nat)
deriving Repr, DecidableEq

/-- Handler for `GET /api/tareas` (`obtener_tareas`, app.py lines 75-86). -/
def obtener_tareas (s : Store) : Nat × Resp × Store :=
  (200, .listJson s.tareas, s)

/-- Handler for `GET /api/tareas/<id>` (`obtener_tarea`, app.py lines 88-104):
`Tarea.query.get(id)` is primary-key lookup. -/
def obtener_tarea (id : Nat) (s : Store) : Nat × Resp × Store :=
  match s.tareas.find? (fun t => t.id == id) with
  | none => (404, .errJson "Tarea no encontrada", s)
  | some t => (200, .tareaJson t, s)

/-- Handler for `POST /api/tareas` (`crear_tarea`, app.py lines 106-138).
Branches, in source order: missing body or missing key `texto` → 400;
calling `.strip()` on a non-string `texto` raises `AttributeError` → 500
(`except` block, session rolled back, store unchanged); stripped text
empty → 400; otherwise insert the new row and return it with 201.
Quotes inside the source error messages are elided here. -/
def crear_tarea (datos : Option Datos) (s : Store) : Nat × Resp × Store :=
  match datos with
  | none => (400, .errJson "Falta el campo texto", s)
  | some d =>
    match d.texto with
    | none => (400, .errJson "Falta el campo texto", s)
    | some (.str txt) =>
      if pyStrip txt = "" then
        (400, .errJson "El texto no puede estar vacío", s)
      else
        let nueva : Tarea :=
          { id := maxId s.tareas + 1
            texto := pyStrip txt
            completada := d.completada.getD false
            fecha_creacion := s.clock }
        (201, .tareaJson nueva, { tareas := s.tareas ++ [nueva], clock := s.clock + 1 })
    | some _ => (500, .errJson "AttributeError", s)

/-- Replace the first element satisfying `p` by its image under `f`
(the in-place mutation of the single row `Tarea.query.get(id)` returned,
followed by `db.session.commit()`). -/
def modifyFirst (p : α → Bool) (f : α → α) : List α → List α
  | [] => []
  | a :: l => if p a then f a :: l else a :: modifyFirst p f l

/-- The mutation `actualizar_tarea` performs on the fetched row for a
given JSON object body (app.py lines 155-158): set `texto` to the
stripped request text when the key is present, set `completada` when that
key is present.  `none` when the present `texto` value is not a string,
in which case the `.strip()` call raises before any field is
assigned. -/
def aplicarDatos? (d : Datos) : Option (Tarea → Tarea) :=
  match d.texto with
  | some (.str txt) =>
    some (fun u => { u with texto := pyStrip txt, completada := d.completada.getD u.completada })
  | some _ => none
  | none => some (fun u => { u with completada := d.completada.getD u.completada })

/-- Handler for `PUT /api/tareas/<id>` (`actualizar_tarea`, app.py lines 140-169).
Unknown id → 404.  A `null` body makes the membership test on `datos` raise
`TypeError` → 500, store unchanged.  A non-string `texto` value raises
`AttributeError` inside the `try` before any assignment → 500, store
unchanged (rollback).  Otherwise the present fields are applied to the
row and the updated row returned with 200. -/
def actualizar_tarea (id : Nat) (datos : Option Datos) (s : Store) : Nat × Resp × Store :=
  match s.tareas.find? (fun t => t.id == id) with
  | none => (404, .errJson "Tarea no encontrada", s)
  | some t =>
    match datos with
    | none => (500, .errJson "TypeError", s)
    | some d =>
      match aplicarDatos? d with
      | none => (500, .errJson "AttributeError", s)
      | some f =>
        (200, .tareaJson (f t),
          { s with tareas := modifyFirst (fun u => u.id == id) f s.tareas })

/-- Handler for `DELETE /api/tareas/<id>` (`eliminar_tarea`, app.py lines 171-191):
unknown id → 404, otherwise the fetched row is deleted and a confirmation
message returned with 200. -/
def eliminar_tarea (id : Nat) (s : Store) : Nat × Resp × Store :=
  match s.tareas.find? (fun t => t.id == id) with
  | none => (404, .errJson "Tarea no encontrada", s)
  | some _ =>
    (200, .msgJson "Tarea eliminada correctamente",
      { s with tareas := s.tareas.eraseP (fun t => t.id == id) })

/-- Handler for `GET /api/estadisticas` (`obtener_estadisticas`, app.py lines
203-221): `total = count()`, `completadas = count(completada=True)`,
`pendientes = total - completadas`. -/
def obtener_estadisticas (s : Store) : Nat × Resp × Store :=
  let total := s.tareas.length
  let completadas := (s.tareas.filter (fun t => t.completada)).length
  (200, .statsJson total completadas (total - completadas), s)

/-- One API request, for reasoning about sequences of operations. -/
inductive Op where
  | post (datos : Option Datos)
  | put (id : Nat) (datos : Option Datos)
  | del (id : Nat)
  | get (id : Nat)
deriving Repr, DecidableEq

/-- Dispatch one request to its handler. -/
def step : Op → Store → Nat × Resp × Store
  | .post d, s => crear_tarea d s
  | .put i d, s => actualizar_tarea i d s
  | .del i, s => eliminar_tarea i s
  | .get i, s => obtener_tarea i s

/-- The store state after one request. -/
def exec (o : Op) (s : Store) : Store := (step o s).2.2

/-- The store state after a sequence of requests. -/
def run (ops : List Op) (s : Store) : Store := ops.foldl (fun s o => exec o s) s

/-- The ids returned by the successful creates of a request sequence, in
order (a create succeeds exactly when its response body is a task). -/
def createdIds : List Op → Store → List Nat
  | [], _ => []
  | o :: os, s =>
    let r := step o s
    match o, r.2.1 with
    | .post _, .tareaJson t => t.id :: createdIds os r.2.2
    | _, _ => createdIds os r.2.2

/-! ### Helper lemmas about `pyStrip` -/

/-- Unfolding equation of `trimRight` on a nonempty list. -/
theorem trimRight_cons_eq (a : Char) (l : List Char) :
    trimRight (a :: l) =
      match trimRight l with
      | [] => if a.isWhitespace then [] else [a]
      | b :: m => a :: b :: m := rfl

/-- Stripping trailing whitespace is idempotent. -/
theorem trimRight_idem (l : List Char) : trimRight (trimRight l) = trimRight l := by
  induction l with
  | nil => rfl
  | cons a l ih =>
    cases h : trimRight l with
    | nil =>
      by_cases ha : a.isWhitespace
      · simp [trimRight_cons_eq, h, ha, trimRight]
      · simp [trimRight_cons_eq, h, ha, trimRight]
    | cons b m =>
      rw [h] at ih
      have h2 : trimRight (a :: l) = a :: b :: m := by
        rw [trimRight_cons_eq, h]
      rw [h2, trimRight_cons_eq, ih]

/-- Stripping trailing whitespace keeps the head of the list. -/
theorem trimRight_head {l : List Char} {a : Char} {m : List Char}
    (h : trimRight l = a :: m) : l.head? = some a := by
  cases l with
  | nil => simp [trimRight] at h
  | cons x xs =>
    cases hx : trimRight xs with
    | nil =>
      by_cases hw : x.isWhitespace
      · simp [trimRight, hx, hw] at h
      · simp [trimRight, hx, hw] at h
        simp [h.1]
    | cons b bm =>
      simp [trimRight, hx] at h
      simp [h.1]

/-- The head of `dropWhile p` falsifies `p`. -/
theorem dropWhile_head_false {p : α → Bool} {l : List α} {a : α} {m : List α}
    (h : l.dropWhile p = a :: m) : p a = false := by
  induction l with
  | nil => simp at h
  | cons x xs ih =>
    cases hx : p x with
    | true =>
      rw [List.dropWhile_cons_of_pos hx] at h
      exact ih h
    | false =>
      rw [List.dropWhile_cons_of_neg (by simp [hx])] at h
      cases h
      exact hx

/-- After a left strip, a right strip introduces no new leading
whitespace. -/
theorem dropWhile_trimRight (l : List Char) :
    (trimRight (l.dropWhile Char.isWhitespace)).dropWhile Char.isWhitespace
      = trimRight (l.dropWhile Char.isWhitespace) := by
  cases h : trimRight (l.dropWhile Char.isWhitespace) with
  | nil => simp
  | cons a m =>
    have ha := trimRight_head h
    cases hd : l.dropWhile Char.isWhitespace with
    | nil => rw [hd] at ha; simp at ha
    | cons x xs =>
      rw [hd] at ha
      have hx := dropWhile_head_false hd
      simp at ha
      rw [List.dropWhile_cons_of_neg (by simp [← ha, hx])]

/-- Python `str.strip()` is idempotent. -/
theorem pyStrip_idem (s : String) : pyStrip (pyStrip s) = pyStrip s := by
  show String.mk (trimRight (List.dropWhile Char.isWhitespace
        (trimRight (s.data.dropWhile Char.isWhitespace)))) =
    String.mk (trimRight (s.data.dropWhile Char.isWhitespace))
  rw [dropWhile_trimRight, trimRight_idem]

/-! ### Helper lemmas about lists -/

/-- When a prefix has no match and `t` matches, `find?` returns `t`. -/
theorem find?_middle {p : α → Bool} {l₁ : List α} {t : α} (l₂ : List α)
    (h₁ : ∀ u ∈ l₁, p u = false) (ht : p t = true) :
    (l₁ ++ t :: l₂).find? p = some t := by
  induction l₁ with
  | nil => simpa using List.find?_cons_of_pos _ ht
  | cons a l ih =>
    have ha : p a = false := h₁ a (by simp)
    rw [List.cons_append, List.find?_cons_of_neg _ (by simp [ha])]
    exact ih fun u hu => h₁ u (by simp [hu])

/-- When a prefix has no match and `t` matches, `modifyFirst` rewrites
exactly `t`. -/
theorem modifyFirst_middle {p : α → Bool} (f : α → α) {l₁ : List α} {t : α} (l₂ : List α)
    (h₁ : ∀ u ∈ l₁, p u = false) (ht : p t = true) :
    modifyFirst p f (l₁ ++ t :: l₂) = l₁ ++ f t :: l₂ := by
  induction l₁ with
  | nil => simp [modifyFirst, ht]
  | cons a l ih =>
    have ha : p a = false := h₁ a (by simp)
    simp only [List.cons_append, modifyFirst, ha, Bool.false_eq_true, if_false,
      List.cons.injEq, true_and]
    exact ih fun u hu => h₁ u (by simp [hu])

/-- When a prefix has no match and `t` matches, `eraseP` deletes exactly
`t`. -/
theorem eraseP_middle {p : α → Bool} {l₁ : List α} {t : α} (l₂ : List α)
    (h₁ : ∀ u ∈ l₁, p u = false) (ht : p t = true) :
    (l₁ ++ t :: l₂).eraseP p = l₁ ++ l₂ := by
  induction l₁ with
  | nil => simp [List.eraseP_cons_of_pos ht]
  | cons a l ih =>
    have ha : p a = false := h₁ a (by simp)
    rw [List.cons_append, List.eraseP_cons_of_neg (by simp [ha]), ih
      fun u hu => h₁ u (by simp [hu])]
    rfl

/-- Members of `modifyFirst p f l` are members of `l` or images under
`f` of members of `l`. -/
theorem mem_modifyFirst {p : α → Bool} {f : α → α} {l : List α} {u : α}
    (h : u ∈ modifyFirst p f l) : u ∈ l ∨ ∃ v, v ∈ l ∧ u = f v := by
  induction l with
  | nil => simp [modifyFirst] at h
  | cons a l ih =>
    by_cases ha : p a
    · simp only [modifyFirst, if_pos ha, List.mem_cons] at h
      rcases h with rfl | h
      · exact Or.inr ⟨a, by simp, rfl⟩
      · exact Or.inl (by simp [h])
    · simp only [modifyFirst, if_neg ha, List.mem_cons] at h
      rcases h with rfl | h
      · exact Or.inl (by simp)
      · rcases ih h with h' | ⟨v, hv, rfl⟩
        · exact Or.inl (by simp [h'])
        · exact Or.inr ⟨v, by simp [hv], rfl⟩

/-- A map invariant under `f` is unchanged by `modifyFirst p f`. -/
theorem map_modifyFirst (g : α → β) {p : α → Bool} {f : α → α}
    (hf : ∀ u, g (f u) = g u) (l : List α) :
    (modifyFirst p f l).map g = l.map g := by
  induction l with
  | nil => rfl
  | cons a l ih =>
    by_cases ha : p a
    · simp [modifyFirst, if_pos ha, hf]
    · simp [modifyFirst, if_neg ha, ih]

/-- Applying `modifyFirst p f` twice equals applying it once, when `f`
is idempotent and preserves `p`. -/
theorem modifyFirst_modifyFirst {p : α → Bool} {f : α → α}
    (hp : ∀ u, p (f u) = p u) (hf : ∀ u, f (f u) = f u) (l : List α) :
    modifyFirst p f (modifyFirst p f l) = modifyFirst p f l := by
  induction l with
  | nil => rfl
  | cons a l ih =>
    by_cases ha : p a
    · simp [modifyFirst, if_pos ha, hp, ha, hf]
    · simp only [modifyFirst, if_neg ha, ih]

/-- Every stored id is bounded by `maxId`. -/
theorem le_maxId {l : List Tarea} {t : Tarea} (h : t ∈ l) : t.id ≤ maxId l := by
  induction l with
  | nil => simp at h
  | cons a l ih =>
    rcases List.mem_cons.mp h with rfl | h
    · exact Nat.le_max_left _ _
    · exact Nat.le_trans (ih h) (Nat.le_max_right _ _)

/-- A list splits into the elements satisfying a predicate and those
falsifying it. -/
theorem length_filter_add_length_filter_not (p : α → Bool) (l : List α) :
    (l.filter p).length + (l.filter (fun a => !p a)).length = l.length := by
  induction l with
  | nil => rfl
  | cons a l ih =>
    cases ha : p a <;> simp [List.filter_cons, ha] <;> omega

/-! ### Facts about the field mutation of an update -/

/-- The update mutation never changes the id of the row. -/
theorem aplicar_id {d : Datos} {f : Tarea → Tarea}
    (h : aplicarDatos? d = some f) (u : Tarea) : (f u).id = u.id := by
  obtain ⟨tx, cp⟩ := d
  cases tx with
  | none =>
    simp only [aplicarDatos?, Option.some.injEq] at h
    subst h; rfl
  | some v =>
    cases v with
    | str txt =>
      simp only [aplicarDatos?, Option.some.injEq] at h
      subst h; rfl
    | num n => simp [aplicarDatos?] at h
    | boolean b => simp [aplicarDatos?] at h
    | null => simp [aplicarDatos?] at h

/-- The update mutation never changes the creation date of the row. -/
theorem aplicar_fecha {d : Datos} {f : Tarea → Tarea}
    (h : aplicarDatos? d = some f) (u : Tarea) : (f u).fecha_creacion = u.fecha_creacion := by
  obtain ⟨tx, cp⟩ := d
  cases tx with
  | none =>
    simp only [aplicarDatos?, Option.some.injEq] at h
    subst h; rfl
  | some v =>
    cases v with
    | str txt =>
      simp only [aplicarDatos?, Option.some.injEq] at h
      subst h; rfl
    | num n => simp [aplicarDatos?] at h
    | boolean b => simp [aplicarDatos?] at h
    | null => simp [aplicarDatos?] at h

/-- The update mutation is idempotent on rows. -/
theorem aplicar_idem {d : Datos} {f : Tarea → Tarea}
    (h : aplicarDatos? d = some f) (u : Tarea) : f (f u) = f u := by
  obtain ⟨tx, cp⟩ := d
  cases tx with
  | none =>
    simp only [aplicarDatos?, Option.some.injEq] at h
    subst h
    cases cp with
    | none => rfl
    | some b => rfl
  | some v =>
    cases v with
    | str txt =>
      simp only [aplicarDatos?, Option.some.injEq] at h
      subst h
      cases cp with
      | none => rfl
      | some b => rfl
    | num n => simp [aplicarDatos?] at h
    | boolean b => simp [aplicarDatos?] at h
    | null => simp [aplicarDatos?] at h

/-- A PUT body whose string `texto`, when present, strips to a nonempty
string; all other operations are unrestricted. -/
def textoSafe : Op → Prop
  | .put _ (some d) =>
    match d.texto with
    | some (.str txt) => pyStrip txt ≠ ""
    | _ => True
  | _ => True

instance : DecidablePred textoSafe := by
  intro o
  unfold textoSafe
  rcases o with d | ⟨i, _ | d⟩ | i | i
  · exact inferInstance
  · exact inferInstance
  · obtain ⟨tx, cp⟩ := d
    rcases tx with _ | v
    · exact inferInstance
    · rcases v with txt | n | b | _ <;> exact inferInstance
  · exact inferInstance
  · exact inferInstance

/-- Under `textoSafe`, the update mutation preserves the nonemptiness of
the stripped stored text. -/
theorem aplicar_texto {i : Nat} {d : Datos} {f : Tarea → Tarea}
    (hsafe : textoSafe (.put i (some d))) (h : aplicarDatos? d = some f)
    (u : Tarea) (hu : pyStrip u.texto ≠ "") : pyStrip (f u).texto ≠ "" := by
  obtain ⟨tx, cp⟩ := d
  cases tx with
  | none =>
    simp only [aplicarDatos?, Option.some.injEq] at h
    subst h
    exact hu
  | some v =>
    cases v with
    | str txt =>
      simp only [aplicarDatos?, Option.some.injEq] at h
      subst h
      simp only [textoSafe] at hsafe
      show pyStrip (pyStrip txt) ≠ ""
      rw [pyStrip_idem]
      exact hsafe
    | num n => simp [aplicarDatos?] at h
    | boolean b => simp [aplicarDatos?] at h
    | null => simp [aplicarDatos?] at h

/-! ### State-change shapes of the handlers -/

/-- A single GET never changes the store. -/
theorem obtener_tarea_state (id : Nat) (s : Store) : (obtener_tarea id s).2.2 = s := by
  unfold obtener_tarea
  split <;> rfl

/-- A create either leaves the store unchanged or appends one fresh row
whose stripped text is nonempty. -/
theorem crear_tarea_state (d : Option Datos) (s : Store) :
    (crear_tarea d s).2.2 = s ∨
    ∃ t, (crear_tarea d s).2.2 = { tareas := s.tareas ++ [t], clock := s.clock + 1 } ∧
      t.id = maxId s.tareas + 1 ∧ pyStrip t.texto ≠ "" := by
  rcases d with _ | ⟨tx, cp⟩
  · exact Or.inl rfl
  · cases tx with
    | none => exact Or.inl rfl
    | some v =>
      cases v with
      | str txt =>
        by_cases he : pyStrip txt = ""
        · left
          simp [crear_tarea, he]
        · right
          refine ⟨{ id := maxId s.tareas + 1, texto := pyStrip txt,
                    completada := cp.getD false, fecha_creacion := s.clock },
                  ?_, rfl, ?_⟩
          · simp [crear_tarea, he]
          · show pyStrip (pyStrip txt) ≠ ""
            rw [pyStrip_idem]
            exact he
      | num n => exact Or.inl rfl
      | boolean b => exact Or.inl rfl
      | null => exact Or.inl rfl

/-- A create that answers with a task body assigns an id strictly above
every id in the store. -/
theorem crear_tarea_fresh {d : Option Datos} {s : Store} {t : Tarea}
    (h : (crear_tarea d s).2.1 = .tareaJson t) :
    ∀ u ∈ s.tareas, u.id < t.id := by
  rcases d with _ | ⟨tx, cp⟩
  · simp [crear_tarea] at h
  · cases tx with
    | none => simp [crear_tarea] at h
    | some v =>
      cases v with
      | str txt =>
        by_cases he : pyStrip txt = ""
        · simp [crear_tarea, he] at h
        · simp only [crear_tarea, he, if_neg, ite_false, Resp.tareaJson.injEq] at h
          intro u hu
          rw [← h]
          exact Nat.lt_succ_of_le (le_maxId hu)
      | num n => simp [crear_tarea] at h
      | boolean b => simp [crear_tarea] at h
      | null => simp [crear_tarea] at h

/-- An update either leaves the store unchanged or rewrites the first
row matching the id with the mutation of its body. -/
theorem actualizar_tarea_state (id : Nat) (d : Option Datos) (s : Store) :
    (actualizar_tarea id d s).2.2 = s ∨
    ∃ dd f, d = some dd ∧ aplicarDatos? dd = some f ∧
      (actualizar_tarea id d s).2.2 =
        { s with tareas := modifyFirst (fun u => u.id == id) f s.tareas } := by
  unfold actualizar_tarea
  split
  · exact Or.inl rfl
  · rcases d with _ | dd
    · exact Or.inl rfl
    · cases hf : aplicarDatos? dd with
      | none => exact Or.inl (by simp only [hf])
      | some f =>
        simp only [hf]
        exact Or.inr ⟨dd, f, rfl, hf, rfl⟩

/-- A delete either leaves the store unchanged or erases the first row
matching the id. -/
theorem eliminar_tarea_state (id : Nat) (s : Store) :
    (eliminar_tarea id s).2.2 = s ∨
    (eliminar_tarea id s).2.2 =
      { s with tareas := s.tareas.eraseP (fun t => t.id == id) } := by
  unfold eliminar_tarea
  split
  · exact Or.inl rfl
  · exact Or.inr rfl

/-! ### Store invariants along operation sequences -/

/-- Invariant: every stored text is nonempty after stripping. -/
def TextoInv (s : Store) : Prop := ∀ t ∈ s.tareas, pyStrip t.texto ≠ ""

/-- Invariant: the stored ids strictly increase in row order. -/
def IdsSorted (s : Store) : Prop := (s.tareas.map Tarea.id).Pairwise (· < ·)

/-- Every single request preserves the sortedness of the stored ids. -/
theorem idsSorted_exec (o : Op) {s : Store} (hs : IdsSorted s) :
    IdsSorted (exec o s) := by
  cases o with
  | get i =>
    show IdsSorted (obtener_tarea i s).2.2
    rw [obtener_tarea_state]
    exact hs
  | post d =>
    show IdsSorted (crear_tarea d s).2.2
    rcases crear_tarea_state d s with h | ⟨t, h, hid, _⟩
    · rw [h]; exact hs
    · rw [h]
      unfold IdsSorted at *
      rw [List.map_append, List.pairwise_append]
      refine ⟨hs, by simp, ?_⟩
      intro x hx y hy
      simp only [List.map_cons, List.map_nil, List.mem_singleton] at hy
      subst hy
      obtain ⟨u, hu, rfl⟩ := List.mem_map.mp hx
      rw [hid]
      exact Nat.lt_succ_of_le (le_maxId hu)
  | put i d =>
    show IdsSorted (actualizar_tarea i d s).2.2
    rcases actualizar_tarea_state i d s with h | ⟨dd, f, _, hf, h⟩
    · rw [h]; exact hs
    · rw [h]
      unfold IdsSorted at *
      rw [map_modifyFirst Tarea.id (aplicar_id hf)]
      exact hs
  | del i =>
    show IdsSorted (eliminar_tarea i s).2.2
    rcases eliminar_tarea_state i s with h | h
    · rw [h]; exact hs
    · rw [h]
      unfold IdsSorted at *
      exact List.Pairwise.sublist ((List.eraseP_sublist s.tareas).map Tarea.id) hs

/-- Every `textoSafe` request preserves the text invariant. -/
theorem textoInv_exec {o : Op} (ho : textoSafe o) {s : Store} (hs : TextoInv s) :
    TextoInv (exec o s) := by
  cases o with
  | get i =>
    show TextoInv (obtener_tarea i s).2.2
    rw [obtener_tarea_state]
    exact hs
  | post d =>
    show TextoInv (crear_tarea d s).2.2
    rcases crear_tarea_state d s with h | ⟨t, h, _, htx⟩
    · rw [h]; exact hs
    · rw [h]
      intro u hu
      rcases List.mem_append.mp hu with hu | hu
      · exact hs u hu
      · rw [List.mem_singleton.mp hu]
        exact htx
  | put i d =>
    show TextoInv (actualizar_tarea i d s).2.2
    rcases actualizar_tarea_state i d s with h | ⟨dd, f, hd, hf, h⟩
    · rw [h]; exact hs
    · rw [h]
      intro u hu
      rcases mem_modifyFirst hu with hu | ⟨v, hv, rfl⟩
      · exact hs u hu
      · subst hd
        exact aplicar_texto ho hf v (hs v hv)
  | del i =>
    show TextoInv (eliminar_tarea i s).2.2
    rcases eliminar_tarea_state i s with h | h
    · rw [h]; exact hs
    · rw [h]
      intro u hu
      exact hs u (List.Sublist.mem hu (List.eraseP_sublist s.tareas))

/-- The ids of the store reached by any request sequence from the empty
store strictly increase in row order. -/
theorem idsSorted_run (ops : List Op) : IdsSorted (run ops Store.init) := by
  suffices h : ∀ s, IdsSorted s → IdsSorted (run ops s) by
    exact h _ (by simp [IdsSorted, Store.init])
  induction ops with
  | nil => exact fun s hs => hs
  | cons o os ih => exact fun s hs => ih _ (idsSorted_exec o hs)

/-- The text invariant holds in any store reached from the empty store
by `textoSafe` requests. -/
theorem textoInv_run {ops : List Op} (h : ∀ o ∈ ops, textoSafe o) :
    TextoInv (run ops Store.init) := by
  suffices hh : ∀ s, TextoInv s → TextoInv (run ops s) by
    exact hh _ (by simp [TextoInv, Store.init])
  induction ops with
  | nil => exact fun s hs => hs
  | cons o os ih =>
    intro s hs
    exact ih (fun o ho => h o (by simp [ho])) _
      (textoInv_exec (h o (by simp)) hs)

/-! ### Claims -/

/-- C1, counterexample: the claim that no PUT can leave a stored task
with a whitespace-only text fails.  After creating task 1 with text `a`,
the PUT body with texto `"   "` stores the empty string: the update
handler strips but never validates nonemptiness (app.py lines 155-156). -/
theorem C1_counterexample :
    (run [Op.post (some { texto := some (JVal.str "a") }),
          Op.put 1 (some { texto := some (JVal.str "   ") })] Store.init).tareas
      = [{ id := 1, texto := "", completada := false, fecha_creacion := 0 }] := by
  decide

/-- C1, amended: starting from the empty store, every stored task has a
text that is nonempty after stripping, provided every PUT body whose
`texto` value is a string strips to a nonempty string; creates enforce
this validation on their own, PUT does not. -/
theorem C1_texto_nonempty (ops : List Op) (h : ∀ o ∈ ops, textoSafe o) :
    ∀ t ∈ (run ops Store.init).tareas, pyStrip t.texto ≠ "" :=
  textoInv_run h

/-- C1, witness: after a create and a completada-only PUT, the stored
task still has a text that is nonempty when stripped. -/
theorem C1_witness :
    pyStrip (Tarea.mk 1 "Buy milk" true 0).texto ≠ "" :=
  C1_texto_nonempty
    [Op.post (some { texto := some (JVal.str "Buy milk") }),
     Op.put 1 (some { texto := none, completada := some true })]
    (by decide) (Tarea.mk 1 "Buy milk" true 0) (by decide)

/-- C2, counterexample: ids are reused after a delete.  Creating two
tasks, deleting the one with the greatest id and creating again assigns
id 2 twice, because SQLite assigns one more than the largest id
currently in the table. -/
theorem C2_counterexample :
    createdIds [Op.post (some { texto := some (JVal.str "a") }),
                Op.post (some { texto := some (JVal.str "b") }),
                Op.del 2,
                Op.post (some { texto := some (JVal.str "c") })] Store.init
        = [1, 2, 2] ∧
      ¬ ([1, 2, 2] : List Nat).Nodup := by
  decide

/-- C2, amended: in every store reachable from the empty store the ids
of the simultaneously stored tasks strictly increase in row order (hence
are pairwise distinct), and a successful create assigns an id strictly
greater than every id currently stored; ids of deleted tasks can however
be reassigned, so ids are not unique across the whole history. -/
theorem C2_ids (ops : List Op) (d : Option Datos) (t : Tarea)
    (hresp : (crear_tarea d (run ops Store.init)).2.1 = Resp.tareaJson t) :
    ((run ops Store.init).tareas.map Tarea.id).Pairwise (· < ·) ∧
    ∀ u ∈ (run ops Store.init).tareas, u.id < t.id :=
  ⟨idsSorted_run ops, crear_tarea_fresh hresp⟩

/-- C2, witness: after creating task 1, a create of text `b` answers
with id 2, above every stored id. -/
theorem C2_witness :
    (((run [Op.post (some { texto := some (JVal.str "a") })] Store.init).tareas.map
        Tarea.id).Pairwise (· < ·)) ∧
    ∀ u ∈ (run [Op.post (some { texto := some (JVal.str "a") })] Store.init).tareas,
      u.id < ({ id := 2, texto := "b", completada := false, fecha_creacion := 1 } : Tarea).id :=
  C2_ids _ (some { texto := some (JVal.str "b") }) _ (by decide)

/-- C3: a POST whose body is missing the key `texto`, or whose `texto`
is a string that strips to empty, answers 400 with an error body and
leaves the store unchanged. -/
theorem C3_create_invalid (d : Option Datos) (s : Store)
    (h : d.bind Datos.texto = none ∨
         ∃ txt, d.bind Datos.texto = some (JVal.str txt) ∧ pyStrip txt = "") :
    (crear_tarea d s).1 = 400 ∧ (∃ m, (crear_tarea d s).2.1 = Resp.errJson m) ∧
      (crear_tarea d s).2.2 = s := by
  rcases d with _ | ⟨tx, cp⟩
  · exact ⟨rfl, ⟨_, rfl⟩, rfl⟩
  · cases tx with
    | none => exact ⟨rfl, ⟨_, rfl⟩, rfl⟩
    | some v =>
      simp only [Option.some_bind] at h
      cases v with
      | str txt =>
        have he : pyStrip txt = "" := by
          rcases h with h | ⟨txt2, h2, he2⟩
          · cases h
          · cases h2
            exact he2
        refine ⟨?_, ⟨"El texto no puede estar vacío", ?_⟩, ?_⟩ <;>
          simp [crear_tarea, he]
      | num n =>
        rcases h with h | ⟨txt2, h2, _⟩
        · cases h
        · cases h2
      | boolean b =>
        rcases h with h | ⟨txt2, h2, _⟩
        · cases h
        · cases h2
      | null =>
        rcases h with h | ⟨txt2, h2, _⟩
        · cases h
        · cases h2

/-- C3, witness: posting whitespace-only texto to the empty store
answers 400 with an error body and adds nothing. -/
theorem C3_witness :
    (crear_tarea (some { texto := some (JVal.str "   ") }) Store.init).1 = 400 ∧
    (∃ m, (crear_tarea (some { texto := some (JVal.str "   ") }) Store.init).2.1
        = Resp.errJson m) ∧
    (crear_tarea (some { texto := some (JVal.str "   ") }) Store.init).2.2 = Store.init :=
  C3_create_invalid _ _ (Or.inr ⟨"   ", by decide, by decide⟩)

/-- C4: when no stored task carries the requested id, GET, PUT and
DELETE on that id each answer 404 with an error body and leave the store
unchanged. -/
theorem C4_not_found (id : Nat) (s : Store) (d : Option Datos)
    (h : ∀ t ∈ s.tareas, t.id ≠ id) :
    obtener_tarea id s = (404, Resp.errJson "Tarea no encontrada", s) ∧
    actualizar_tarea id d s = (404, Resp.errJson "Tarea no encontrada", s) ∧
    eliminar_tarea id s = (404, Resp.errJson "Tarea no encontrada", s) := by
  have hf : s.tareas.find? (fun t => t.id == id) = none :=
    List.find?_eq_none.mpr fun t ht => by simpa using h t ht
  refine ⟨?_, ?_, ?_⟩ <;>
    simp [obtener_tarea, actualizar_tarea, eliminar_tarea, hf]

/-- C4, witness: id 999999 on the empty store answers 404 for GET, PUT
and DELETE. -/
theorem C4_witness :
    obtener_tarea 999999 Store.init
        = (404, Resp.errJson "Tarea no encontrada", Store.init) ∧
    actualizar_tarea 999999 none Store.init
        = (404, Resp.errJson "Tarea no encontrada", Store.init) ∧
    eliminar_tarea 999999 Store.init
        = (404, Resp.errJson "Tarea no encontrada", Store.init) :=
  C4_not_found 999999 Store.init none (by decide)

/-- C5: a PUT whose body holds only `completada` answers 200 with a task
keeping the id, text and creation date of the stored task, stores that
task in place, and leaves every other stored task unchanged. -/
theorem C5_update_only_completada (s : Store) (id : Nat) (b : Bool) (t : Tarea)
    (h : s.tareas.find? (fun u => u.id == id) = some t) :
    ∃ l₁ l₂ t',
      s.tareas = l₁ ++ t :: l₂ ∧
      t'.id = t.id ∧ t'.texto = t.texto ∧ t'.fecha_creacion = t.fecha_creacion ∧
      t'.completada = b ∧
      actualizar_tarea id (some { texto := none, completada := some b }) s =
        (200, Resp.tareaJson t', { s with tareas := l₁ ++ t' :: l₂ }) := by
  obtain ⟨hpt, l₁, l₂, hl, hprev⟩ := List.find?_eq_some.mp h
  refine ⟨l₁, l₂, { t with completada := b }, hl, rfl, rfl, rfl, rfl, ?_⟩
  simp only [actualizar_tarea, h, aplicarDatos?, Option.getD_some]
  rw [hl, modifyFirst_middle _ l₂ (fun u hu => by simpa using hprev u hu) hpt]

/-- C5, witness: flipping `completada` of task 1 in a two-task store
changes nothing else. -/
theorem C5_witness :
    ∃ l₁ l₂ t',
      (Store.mk [Tarea.mk 1 "a" false 0, Tarea.mk 2 "b" false 0] 2).tareas
          = l₁ ++ Tarea.mk 1 "a" false 0 :: l₂ ∧
      t'.id = (Tarea.mk 1 "a" false 0).id ∧
      t'.texto = (Tarea.mk 1 "a" false 0).texto ∧
      t'.fecha_creacion = (Tarea.mk 1 "a" false 0).fecha_creacion ∧
      t'.completada = true ∧
      actualizar_tarea 1 (some { texto := none, completada := some true })
          (Store.mk [Tarea.mk 1 "a" false 0, Tarea.mk 2 "b" false 0] 2) =
        (200, Resp.tareaJson t',
          { Store.mk [Tarea.mk 1 "a" false 0, Tarea.mk 2 "b" false 0] 2 with
              tareas := l₁ ++ t' :: l₂ }) :=
  C5_update_only_completada (Store.mk [Tarea.mk 1 "a" false 0, Tarea.mk 2 "b" false 0] 2)
    1 true (Tarea.mk 1 "a" false 0) (by decide)

/-- C6: the stats endpoint answers 200 without touching the store;
`total` counts all stored tasks, `completadas` the completed ones,
`pendientes` the pending ones, and `total = completadas + pendientes`. -/
theorem C6_stats (s : Store) :
    (obtener_estadisticas s).1 = 200 ∧ (obtener_estadisticas s).2.2 = s ∧
    ∃ n k p, (obtener_estadisticas s).2.1 = Resp.statsJson n k p ∧
      n = s.tareas.length ∧
      k = (s.tareas.filter (fun t => t.completada)).length ∧
      p = (s.tareas.filter (fun t => !t.completada)).length ∧
      n = k + p := by
  have hc := length_filter_add_length_filter_not (fun t => t.completada) s.tareas
  refine ⟨rfl, rfl, s.tareas.length,
    (s.tareas.filter (fun t => t.completada)).length,
    s.tareas.length - (s.tareas.filter (fun t => t.completada)).length,
    rfl, rfl, rfl, ?_, ?_⟩ <;> omega

/-- C7, counterexample: the response text is not always the given text.
Creating with texto `" a "` answers with texto `"a"`: the handler strips
the text before storage (app.py line 124), so the claim literally read
fails on text with surrounding whitespace. -/
theorem C7_counterexample :
    (crear_tarea (some { texto := some (JVal.str " a ") }) Store.init).2.1 =
      Resp.tareaJson { id := 1, texto := "a", completada := false, fecha_creacion := 0 } ∧
    "a" ≠ " a " := by
  decide

/-- C7, amended: a POST whose `texto` is a string that strips to a
nonempty string answers 201 with the created task, which carries the
stripped given text, the completada flag defaulting to false when the
key is absent, a fresh positive id above every stored id, and the
creation timestamp; the task is appended to the store. -/
theorem C7_create_valid (s : Store) (txt : String) (c : Option Bool)
    (h : pyStrip txt ≠ "") :
    ∃ t, crear_tarea (some { texto := some (JVal.str txt), completada := c }) s =
        (201, Resp.tareaJson t, { tareas := s.tareas ++ [t], clock := s.clock + 1 }) ∧
      t.texto = pyStrip txt ∧ t.completada = c.getD false ∧
      t.fecha_creacion = s.clock ∧ 0 < t.id ∧ ∀ u ∈ s.tareas, u.id < t.id := by
  refine ⟨{ id := maxId s.tareas + 1, texto := pyStrip txt, completada := c.getD false,
            fecha_creacion := s.clock }, ?_, rfl, rfl, rfl, Nat.succ_pos _, ?_⟩
  · simp [crear_tarea, h]
  · intro u hu
    exact Nat.lt_succ_of_le (le_maxId hu)

/-- C7, witness: creating `Buy milk` in the empty store. -/
theorem C7_witness :
    ∃ t, crear_tarea (some { texto := some (JVal.str "Buy milk"), completada := none })
          Store.init =
        (201, Resp.tareaJson t,
          { tareas := Store.init.tareas ++ [t], clock := Store.init.clock + 1 }) ∧
      t.texto = pyStrip "Buy milk" ∧ t.completada = (none : Option Bool).getD false ∧
      t.fecha_creacion = Store.init.clock ∧ 0 < t.id ∧
      ∀ u ∈ Store.init.tareas, u.id < t.id :=
  C7_create_valid Store.init "Buy milk" none (by decide)

/-- C8: deleting an id present in a reachable store answers 200 with a
confirmation message, removes exactly that task, lowers the count by
one, leaves every other task unchanged, and a subsequent GET on the id
answers 404. -/
theorem C8_delete_existing (ops : List Op) (id : Nat) (t : Tarea)
    (h : (run ops Store.init).tareas.find? (fun u => u.id == id) = some t) :
    ∃ l₁ l₂,
      (run ops Store.init).tareas = l₁ ++ t :: l₂ ∧
      eliminar_tarea id (run ops Store.init) =
        (200, Resp.msgJson "Tarea eliminada correctamente",
          { (run ops Store.init) with tareas := l₁ ++ l₂ }) ∧
      (l₁ ++ l₂).length + 1 = (run ops Store.init).tareas.length ∧
      (obtener_tarea id { (run ops Store.init) with tareas := l₁ ++ l₂ }).1 = 404 := by
  obtain ⟨hpt, l₁, l₂, hl, hprev⟩ := List.find?_eq_some.mp h
  have hprev' : ∀ u ∈ l₁, (u.id == id) = false := fun u hu => by simpa using hprev u hu
  have htid : t.id = id := by simpa using hpt
  refine ⟨l₁, l₂, hl, ?_, ?_, ?_⟩
  · simp only [eliminar_tarea, h]
    rw [hl, eraseP_middle l₂ hprev' hpt]
  · rw [hl]
    simp only [List.length_append, List.length_cons]
    omega
  · have hsorted := idsSorted_run ops
    unfold IdsSorted at hsorted
    rw [hl, List.map_append, List.map_cons, List.pairwise_append] at hsorted
    have hcons := hsorted.2.1
    rw [List.pairwise_cons] at hcons
    have hl₂ : ∀ u ∈ l₂, (u.id == id) = false := by
      intro u hu
      have hlt : t.id < u.id := hcons.1 _ (List.mem_map_of_mem Tarea.id hu)
      have hne : u.id ≠ id := by omega
      simpa using hne
    have hn : (l₁ ++ l₂).find? (fun u => u.id == id) = none :=
      List.find?_eq_none.mpr fun u hu => by
        rcases List.mem_append.mp hu with hu | hu
        · simp [hprev' u hu]
        · simp [hl₂ u hu]
    simp [obtener_tarea, hn]

/-- C8, witness: deleting task 1 after creating it alone. -/
theorem C8_witness :
    ∃ l₁ l₂,
      (run [Op.post (some { texto := some (JVal.str "a") })] Store.init).tareas
          = l₁ ++ Tarea.mk 1 "a" false 0 :: l₂ ∧
      eliminar_tarea 1 (run [Op.post (some { texto := some (JVal.str "a") })] Store.init) =
        (200, Resp.msgJson "Tarea eliminada correctamente",
          { (run [Op.post (some { texto := some (JVal.str "a") })] Store.init) with
              tareas := l₁ ++ l₂ }) ∧
      (l₁ ++ l₂).length + 1
          = (run [Op.post (some { texto := some (JVal.str "a") })] Store.init).tareas.length ∧
      (obtener_tarea 1
          { (run [Op.post (some { texto := some (JVal.str "a") })] Store.init) with
              tareas := l₁ ++ l₂ }).1 = 404 :=
  C8_delete_existing [Op.post (some { texto := some (JVal.str "a") })] 1
    (Tarea.mk 1 "a" false 0) (by decide)

/-- C9: on an existing task, repeating an identical PUT leaves the store
state reached by the first PUT unchanged, whatever the body: applied
fields are overwritten with the same values (the request text is
stripped anew, not the stored one), and failing requests change
nothing. -/
theorem C9_put_idempotent (s : Store) (id : Nat) (d : Option Datos) (t : Tarea)
    (h : s.tareas.find? (fun u => u.id == id) = some t) :
    (actualizar_tarea id d (actualizar_tarea id d s).2.2).2.2 =
      (actualizar_tarea id d s).2.2 := by
  rcases d with _ | dd
  · simp [actualizar_tarea, h]
  · cases hf : aplicarDatos? dd with
    | none => simp [actualizar_tarea, h, hf]
    | some f =>
      obtain ⟨hpt, l₁, l₂, hl, hprev⟩ := List.find?_eq_some.mp h
      have hprev' : ∀ u ∈ l₁, (u.id == id) = false := fun u hu => by simpa using hprev u hu
      have hpf : ((f t).id == id) = true := by
        rw [aplicar_id hf]
        exact hpt
      have h1 : (actualizar_tarea id (some dd) s).2.2
          = { s with tareas := l₁ ++ f t :: l₂ } := by
        simp only [actualizar_tarea, h, hf]
        rw [hl, modifyFirst_middle f l₂ hprev' hpt]
      have hfind2 : (l₁ ++ f t :: l₂).find? (fun u => u.id == id) = some (f t) :=
        find?_middle l₂ hprev' hpf
      rw [h1]
      simp only [actualizar_tarea, hfind2, hf]
      rw [modifyFirst_middle f l₂ hprev' hpf, aplicar_idem hf t]

/-- C9, witness: repeating a PUT that rewrites text and flag of the only
task is a no-op the second time. -/
theorem C9_witness :
    (actualizar_tarea 1 (some { texto := some (JVal.str " y "), completada := some true })
        (actualizar_tarea 1 (some { texto := some (JVal.str " y "), completada := some true })
          (Store.mk [Tarea.mk 1 "x" false 0] 1)).2.2).2.2 =
      (actualizar_tarea 1 (some { texto := some (JVal.str " y "), completada := some true })
        (Store.mk [Tarea.mk 1 "x" false 0] 1)).2.2 :=
  C9_put_idempotent (Store.mk [Tarea.mk 1 "x" false 0] 1) 1
    (some { texto := some (JVal.str " y "), completada := some true })
    (Tarea.mk 1 "x" false 0) (by decide)

/-- C10: a POST whose `texto` value is present but not a string answers
500 with an error body (the `.strip()` call raises `AttributeError`, the
handler catches every exception) and the store is unchanged. -/
theorem C10_nonstring_texto (s : Store) (v : JVal) (c : Option Bool)
    (h : ∀ txt, v ≠ JVal.str txt) :
    crear_tarea (some { texto := some v, completada := c }) s =
      (500, Resp.errJson "AttributeError", s) := by
  cases v with
  | str txt => exact absurd rfl (h txt)
  | num n => rfl
  | boolean b => rfl
  | null => rfl

/-- C10, witness: posting a numeric texto to the empty store answers
500 and stores nothing. -/
theorem C10_witness :
    crear_tarea (some { texto := some (JVal.num 5), completada := none }) Store.init =
      (500, Resp.errJson "AttributeError", Store.init) :=
  C10_nonstring_texto Store.init (JVal.num 5) none fun _ hc => JVal.noConfusion hc

end TodoApi
